import Mathlib

/-
Verification of the Krea job gateway and its poll-until-terminal loop.

The embedding mirrors src/services/krea-client.ts (KreaClient), the delete
tool handlers in src/tools/index.ts, and the zod schema defaults in
src/schemas/index.ts.  Network effects are abstracted by an oracle: the
outcome of one HTTP exchange is a `FetchOutcome`, and `requestResult`
reproduces the normalization branches of `KreaClient.request`.  The wait
loop consumes a finite trace of fetch outcomes (one entry per `getJob`
call the remote would answer), carrying the elapsed wall-clock time
explicitly: an entry's first component is the duration of that fetch, and
each sleep adds `pollIntervalMs` (the idealized `setTimeout` duration).
The loop also records its observable actions as a list of `WaitEvent`s.
-/

/-- Job status, from src/types.ts (`JobStatus`). -/
inductive JobStatus : Type
  | pending
  | processing
  | completed
  | failed
  | cancelled
deriving DecidableEq

/-- Result payload of a completed job, from src/types.ts (`KreaJobResult`);
the free-form `assets`/`metadata` fields are not used by any claim and are
omitted. -/
structure KreaJobResult : Type where
  url : Option String
  urls : Option (List String)
deriving DecidableEq

/-- A remote job snapshot, from src/types.ts (`KreaJob`). -/
structure KreaJob : Type where
  id : String
  status : JobStatus
  type : String
  createdAt : String
  updatedAt : String
  completedAt : Option String
  result : Option KreaJobResult
  error : Option String
  progress : Option Rat
deriving DecidableEq

/-- Error member of the gateway envelope, from krea-client.ts
(`ApiResponse`'s `error` field); the free-form `details` record is
presentation only and omitted. -/
structure ApiError : Type where
  code : String
  message : String
deriving DecidableEq

/-- The uniform gateway envelope, from krea-client.ts (`ApiResponse<T>`).
In TypeScript `data` and `error` are both optional, so the type itself
does not force exactly one to be present; that is the invariant checked
against the producing code. -/
structure ApiResponse (α : Type) : Type where
  success : Bool
  data : Option α
  error : Option ApiError

/-- Outcome of one HTTP exchange, abstracting the fetch in
`KreaClient.request`: a 2xx response with parsed body, a non-2xx response
(status plus the body's `message` field when the body has a truthy one),
an AbortError raised by the request timeout, or any other thrown error
(with its `.message` when it is an `Error`). -/
inductive FetchOutcome (α : Type) : Type
  | ok (data : α)
  | httpError (status : Nat) (bodyMessage : Option String)
  | abortError
  | otherError (message : Option String)

/-- Message selection for the non-2xx branch of `KreaClient.request`
(line 93): `data?.message || "Request failed with status <s>"`, where the
JavaScript `||` also rejects an empty string. -/
def httpErrorMessage (status : Nat) (bodyMessage : Option String) : String :=
  match bodyMessage with
  | some s => if s = "" then "Request failed with status " ++ toString status else s
  | none => "Request failed with status " ++ toString status

/-- Normalization performed by `KreaClient.request` (krea-client.ts lines
86-114): 2xx gives `success:true` with the body, non-2xx gives the
`HTTP_<status>` error, an aborted request gives the `TIMEOUT` error, and
any other exception gives `REQUEST_ERROR`. -/
def requestResult {α : Type} : FetchOutcome α → ApiResponse α
  | FetchOutcome.ok d => ⟨true, some d, none⟩
  | FetchOutcome.httpError s m =>
      ⟨false, none, some ⟨"HTTP_" ++ toString s, httpErrorMessage s m⟩⟩
  | FetchOutcome.abortError =>
      ⟨false, none, some ⟨"TIMEOUT", "Request timed out"⟩⟩
  | FetchOutcome.otherError m =>
      ⟨false, none, some ⟨"REQUEST_ERROR", m.getD "Unknown error"⟩⟩

/-- Query-string construction in `KreaClient.request` (lines 62-68): every
entry whose value is not `undefined` is appended, in order; `undefined`
entries are omitted entirely. -/
def buildSearchParams (params : List (String × Option String)) : List (String × String) :=
  params.filterMap (fun p =>
    match p.2 with
    | some v => some (p.1, v)
    | none => none)

/-- Arguments of `KreaClient.listJobs` (krea-client.ts lines 137-142). -/
structure ListJobsParams : Type where
  limit : Option Int
  offset : Option Int
  status : Option String
  type : Option String

/-- The params object `KreaClient.listJobs` hands to `get` (lines
143-148): `limit` and `offset` pass through, `status` is replaced by
`undefined` when it equals "all", and `type` passes through unchanged. -/
def listJobsRawParams (p : ListJobsParams) : List (String × Option String) :=
  [("limit", p.limit.map toString),
   ("offset", p.offset.map toString),
   ("status", if p.status = some "all" then none else p.status),
   ("type", p.type)]

/-- The query parameters actually appended to the outgoing `/v1/jobs`
request URL. -/
def listJobsQueryParams (p : ListJobsParams) : List (String × String) :=
  buildSearchParams (listJobsRawParams p)

/-- Body of a delete response, from `KreaClient.deleteJob`'s
`{ deleted: boolean }`. -/
structure DeleteResult : Type where
  deleted : Bool
deriving DecidableEq

/-- `KreaClient.deleteJob` (lines 155-157): a single DELETE request with
no post-processing of the outcome. -/
def deleteJob (jobId : String) (outcome : FetchOutcome DeleteResult) :
    ApiResponse DeleteResult :=
  requestResult outcome

/-- `KreaClient.deleteAsset` (lines 218-220): same shape as `deleteJob`. -/
def deleteAsset (assetId : String) (outcome : FetchOutcome DeleteResult) :
    ApiResponse DeleteResult :=
  requestResult outcome

/-- Observable actions of one `waitForJob` run: an issued `getJob` fetch,
or a sleep of the given number of milliseconds. -/
inductive WaitEvent : Type
  | fetch
  | sleep (ms : Int)
deriving DecidableEq

/-- Terminal-status test of `KreaClient.waitForJob` (line 175):
`status === "completed" || status === "failed" || status === "cancelled"`. -/
def isTerminalStatus : JobStatus → Bool
  | JobStatus.completed => true
  | JobStatus.failed => true
  | JobStatus.cancelled => true
  | JobStatus.pending => false
  | JobStatus.processing => false

/-- The value returned when the deadline elapses (krea-client.ts lines
182-188). -/
def timeoutResponse (jobId : String) (timeoutMs : Int) : ApiResponse KreaJob :=
  ⟨false, none,
   some ⟨"TIMEOUT",
         "Job " ++ jobId ++ " did not complete within " ++ toString timeoutMs ++ "ms"⟩⟩

/-- The loop of `KreaClient.waitForJob` (lines 164-189).  `elapsed` is
`Date.now() - startTime` at the moment the `while` condition is tested;
one iteration fetches (duration `d`, response `r` — the oracle trace
supplies both), returns `r` unchanged when it is a failure or when it
carries a terminal job, and otherwise sleeps `pollIntervalMs` and loops
with `elapsed` advanced by the fetch duration plus the sleep.  The result
pairs the returned envelope with the list of events the run performed;
`none` means the oracle trace was exhausted while the loop still wanted
to fetch, i.e. the trace does not determine the run. -/
def waitForJobGo (jobId : String) (timeoutMs pollIntervalMs : Int) :
    List (Int × ApiResponse KreaJob) → Int → Option (ApiResponse KreaJob × List WaitEvent)
  | [], elapsed =>
      if elapsed < timeoutMs then none
      else some (timeoutResponse jobId timeoutMs, [])
  | (d, r) :: rest, elapsed =>
      if elapsed < timeoutMs then
        if r.success = false then some (r, [WaitEvent.fetch])
        else
          match r.data with
          | some job =>
              if isTerminalStatus job.status then some (r, [WaitEvent.fetch])
              else
                match waitForJobGo jobId timeoutMs pollIntervalMs rest
                    (elapsed + d + pollIntervalMs) with
                | some (res, evs) =>
                    some (res, WaitEvent.fetch :: WaitEvent.sleep pollIntervalMs :: evs)
                | none => none
          | none => none
      else some (timeoutResponse jobId timeoutMs, [])

/-- Default `timeoutMs` of `KreaClient.waitForJob` (line 161). -/
def defaultTimeoutMs : Int := 120000

/-- Default `pollIntervalMs` of `KreaClient.waitForJob` (line 162). -/
def defaultPollIntervalMs : Int := 2000

/-- `KreaClient.waitForJob`: the loop started with `elapsed = 0`. -/
def waitForJob (jobId : String) (timeoutMs pollIntervalMs : Int)
    (trace : List (Int × ApiResponse KreaJob)) :
    Option (ApiResponse KreaJob × List WaitEvent) :=
  waitForJobGo jobId timeoutMs pollIntervalMs trace 0

/-- `KreaClient.generateImage` (lines 279-296): submit, and when the
submit succeeded and `waitForCompletion` is set, wait with `waitForJob`'s
own defaults.  `none` models the crash of `result.data!.id` when a
success envelope carries no data. -/
def generateImage (submitOutcome : FetchOutcome KreaJob) (waitForCompletion : Bool)
    (trace : List (Int × ApiResponse KreaJob)) :
    Option (ApiResponse KreaJob × List WaitEvent) :=
  let result := requestResult submitOutcome
  if result.success = false ∨ waitForCompletion = false then some (result, [])
  else
    match result.data with
    | some job => waitForJob job.id defaultTimeoutMs defaultPollIntervalMs trace
    | none => none

/-- `KreaClient.generateVideo` (lines 359-376): like `generateImage` but
the wait passes an explicit 300000 ms timeout, leaving the poll interval
to the default. -/
def generateVideo (submitOutcome : FetchOutcome KreaJob) (waitForCompletion : Bool)
    (trace : List (Int × ApiResponse KreaJob)) :
    Option (ApiResponse KreaJob × List WaitEvent) :=
  let result := requestResult submitOutcome
  if result.success = false ∨ waitForCompletion = false then some (result, [])
  else
    match result.data with
    | some job => waitForJob job.id 300000 defaultPollIntervalMs trace
    | none => none

/-- Wall-clock time one run consumes while working through a list of
non-terminal fetches: for each entry, its fetch duration plus one poll
interval of sleep. -/
def sumElapsed (pollIntervalMs : Int) : List (Int × ApiResponse KreaJob) → Int
  | [] => 0
  | (d, _) :: rest => d + pollIntervalMs + sumElapsed pollIntervalMs rest

/-- The event list produced by `n` non-terminal loop iterations: a fetch
followed by a fixed-interval sleep, `n` times. -/
def fetchSleepEvents (pollIntervalMs : Int) : Nat → List WaitEvent
  | 0 => []
  | Nat.succ n => WaitEvent.fetch :: WaitEvent.sleep pollIntervalMs :: fetchSleepEvents pollIntervalMs n

/-- A trace entry the loop treats as one more round of polling: a
successful fetch of a job that is not yet terminal. -/
def nonTerminalEntry (p : Int × ApiResponse KreaJob) : Prop :=
  p.2.success = true ∧ ∃ job, p.2.data = some job ∧ isTerminalStatus job.status = false

/-- The envelope invariant of the Operation Result: a success carries
data and no error, a failure carries an error and no data. -/
def envelopeOk {α : Type} (r : ApiResponse α) : Prop :=
  (r.success = true → r.data.isSome = true ∧ r.error = none) ∧
  (r.success = false → r.error.isSome = true ∧ r.data = none)

/-- One content block of a tool result, from formatters.ts
(`ToolResult.content`). -/
structure ToolContent : Type where
  text : String
deriving DecidableEq

/-- Tool result shape, from formatters.ts (`ToolResult`); the
`structuredContent` echo of the data is presentation only and omitted. -/
structure ToolResult : Type where
  content : List ToolContent
  isError : Option Bool
deriving DecidableEq

/-- `CHARACTER_LIMIT` from src/types.ts. -/
def CHARACTER_LIMIT : Nat := 10000

/-- `truncateText` from formatters.ts. -/
def truncateText (text : String) (limit : Nat) : String :=
  if text.length ≤ limit then text
  else text.take (limit - 100) ++ "\n\n... [Truncated. Use pagination for more results.]"

/-- `formatTextResponse` from formatters.ts (no `isError` flag set). -/
def formatTextResponse (text : String) : ToolResult :=
  ⟨[⟨truncateText text CHARACTER_LIMIT⟩], none⟩

/-- `formatErrorResponse` from formatters.ts: marks the result as an
error and renders the message, with the suggestion line when present. -/
def formatErrorResponse (message : String) (suggestion : Option String) : ToolResult :=
  match suggestion with
  | some s =>
      ⟨[⟨"❌ **Error**: " ++ message ++ "\n\n💡 **Suggestion**: " ++ s⟩], some true⟩
  | none => ⟨[⟨"❌ **Error**: " ++ message⟩], some true⟩

/-- An outbound gateway operation a tool handler performed, used to state
that a handler did or did not reach the client. -/
inductive GatewayCall : Type
  | deleteJobCall (jobId : String)
  | deleteAssetCall (assetId : String)
deriving DecidableEq

/-- Parsed arguments of the `krea_delete_job` tool
(`DeleteJobSchema` in src/schemas/index.ts). -/
structure DeleteJobInput : Type where
  job_id : String
  confirm : Bool

/-- Parsed arguments of the `krea_delete_asset` tool
(`DeleteAssetSchema` in src/schemas/index.ts). -/
structure DeleteAssetInput : Type where
  asset_id : String
  confirm : Bool

/-- Schema default of `confirm` in `DeleteJobSchema`
(src/schemas/index.ts line 46: `z.boolean().default(false)`). -/
def deleteJobConfirmDefault : Bool := false

/-- Schema default of `confirm` in `DeleteAssetSchema`
(src/schemas/index.ts line 81). -/
def deleteAssetConfirmDefault : Bool := false

/-- The `krea_delete_job` handler (src/tools/index.ts lines 184-194),
paired with the list of gateway operations it performed.  The delete
outcome is an oracle that is only consulted when the handler actually
calls `client.deleteJob`. -/
def kreaDeleteJobTool (params : DeleteJobInput) (outcome : FetchOutcome DeleteResult) :
    ToolResult × List GatewayCall :=
  if params.confirm = false then
    (formatErrorResponse "Deletion not confirmed" (some "Set confirm=true to delete"), [])
  else
    let result := deleteJob params.job_id outcome
    if result.success = false then
      (formatErrorResponse ((result.error.map ApiError.message).getD "") none,
       [GatewayCall.deleteJobCall params.job_id])
    else
      (formatTextResponse ("✅ Job `" ++ params.job_id ++ "` deleted successfully."),
       [GatewayCall.deleteJobCall params.job_id])

/-- The `krea_delete_asset` handler (src/tools/index.ts lines 279-289). -/
def kreaDeleteAssetTool (params : DeleteAssetInput) (outcome : FetchOutcome DeleteResult) :
    ToolResult × List GatewayCall :=
  if params.confirm = false then
    (formatErrorResponse "Deletion not confirmed" (some "Set confirm=true to delete"), [])
  else
    let result := deleteAsset params.asset_id outcome
    if result.success = false then
      (formatErrorResponse ((result.error.map ApiError.message).getD "") none,
       [GatewayCall.deleteAssetCall params.asset_id])
    else
      (formatTextResponse ("✅ Asset `" ++ params.asset_id ++ "` deleted successfully."),
       [GatewayCall.deleteAssetCall params.asset_id])

/-- A terminal job observed by the loop in the witnesses below: a job the
remote reports as failed, fetched successfully. -/
def sampleFailedJob : KreaJob :=
  ⟨"job-1", JobStatus.failed, "image", "2024-01-01", "2024-01-02", none, none,
   some "generation failed", none⟩

/-- A job still in the queue, used as a non-terminal observation. -/
def samplePendingJob : KreaJob :=
  ⟨"job-1", JobStatus.pending, "image", "2024-01-01", "2024-01-01", none, none, none, none⟩

/-- A successful fetch of `sampleFailedJob`. -/
def sampleTerminalResp : ApiResponse KreaJob := ⟨true, some sampleFailedJob, none⟩

/-- A successful fetch of `samplePendingJob`. -/
def samplePendingResp : ApiResponse KreaJob := ⟨true, some samplePendingJob, none⟩

/-- A failed fetch, as `request` shapes a remote 404. -/
def sampleErrorResp : ApiResponse KreaJob :=
  ⟨false, none, some ⟨"HTTP_404", "Request failed with status 404"⟩⟩

/-- `sumElapsed` of nonnegative durations with a nonnegative interval is
nonnegative. -/
theorem sumElapsed_nonneg (pollIntervalMs : Int) (l : List (Int × ApiResponse KreaJob))
    (hi : 0 ≤ pollIntervalMs) (hd : ∀ p ∈ l, 0 ≤ p.1) :
    0 ≤ sumElapsed pollIntervalMs l := by
  induction l with
  | nil => simp [sumElapsed]
  | cons p rest ih =>
      obtain ⟨d, r⟩ := p
      have h1 : 0 ≤ d := hd (d, r) (List.mem_cons_self _ _)
      have h2 : 0 ≤ sumElapsed pollIntervalMs rest :=
        ih (fun q hq => hd q (List.mem_cons_of_mem _ hq))
      simp only [sumElapsed]
      omega

/-- Once the elapsed time has reached the budget, the loop returns the
timeout error at the very next `while` test, before any further fetch,
whatever the remaining trace holds. -/
theorem waitForJobGo_deadline (jobId : String) (timeoutMs pollIntervalMs elapsed : Int)
    (trace : List (Int × ApiResponse KreaJob)) (h : timeoutMs ≤ elapsed) :
    waitForJobGo jobId timeoutMs pollIntervalMs trace elapsed
      = some (timeoutResponse jobId timeoutMs, []) := by
  have hnot : ¬ elapsed < timeoutMs := not_lt.mpr h
  cases trace with
  | nil => simp [waitForJobGo, hnot]
  | cons p rest =>
      obtain ⟨d, r⟩ := p
      simp [waitForJobGo, hnot]

/-- Working through a block of successful non-terminal fetches that fits
inside the deadline: the loop consumes the block one fetch-and-sleep pair
per entry and continues on the remaining trace with the elapsed clock
advanced by the block's total time. -/
theorem waitForJobGo_append (jobId : String) (timeoutMs pollIntervalMs : Int)
    (pre rest : List (Int × ApiResponse KreaJob)) (elapsed : Int)
    (hwf : ∀ p ∈ pre, nonTerminalEntry p)
    (hd : ∀ p ∈ pre, 0 ≤ p.1)
    (hi : 0 ≤ pollIntervalMs)
    (hde : elapsed + sumElapsed pollIntervalMs pre < timeoutMs) :
    waitForJobGo jobId timeoutMs pollIntervalMs (pre ++ rest) elapsed
      = (waitForJobGo jobId timeoutMs pollIntervalMs rest
          (elapsed + sumElapsed pollIntervalMs pre)).map
          (fun x => (x.1, fetchSleepEvents pollIntervalMs pre.length ++ x.2)) := by
  induction pre generalizing elapsed with
  | nil =>
      simp only [List.nil_append, sumElapsed, List.length_nil, fetchSleepEvents, add_zero,
        List.nil_append]
      cases waitForJobGo jobId timeoutMs pollIntervalMs rest elapsed with
      | none => rfl
      | some x => simp
  | cons p pre ih =>
      obtain ⟨d, r⟩ := p
      obtain ⟨hsucc, job, hdata, hterm⟩ := hwf (d, r) (List.mem_cons_self _ _)
      have hsucc2 : r.success = true := hsucc
      have hdata2 : r.data = some job := hdata
      have hd0 : 0 ≤ d := hd (d, r) (List.mem_cons_self _ _)
      have hpre : 0 ≤ sumElapsed pollIntervalMs pre :=
        sumElapsed_nonneg pollIntervalMs pre hi (fun q hq => hd q (List.mem_cons_of_mem _ hq))
      have hsum : sumElapsed pollIntervalMs ((d, r) :: pre)
          = d + pollIntervalMs + sumElapsed pollIntervalMs pre := rfl
      rw [hsum] at hde
      have helapsed : elapsed < timeoutMs := by omega
      simp only [List.cons_append, waitForJobGo, List.append_eq, if_pos helapsed,
        hsucc2, hdata2, hterm]
      simp only [Bool.true_eq_false, if_false, Bool.false_eq_true]
      rw [ih (elapsed + d + pollIntervalMs)
        (fun q hq => hwf q (List.mem_cons_of_mem _ hq))
        (fun q hq => hd q (List.mem_cons_of_mem _ hq))
        (by omega)]
      have harg : elapsed + d + pollIntervalMs + sumElapsed pollIntervalMs pre
          = elapsed + sumElapsed pollIntervalMs ((d, r) :: pre) := by
        rw [hsum]; ring
      rw [harg]
      cases waitForJobGo jobId timeoutMs pollIntervalMs rest
          (elapsed + sumElapsed pollIntervalMs ((d, r) :: pre)) with
      | none => rfl
      | some x => simp [fetchSleepEvents]

/-- One more fetch-and-sleep pair at the end of an event block. -/
theorem fetchSleepEvents_snoc (pollIntervalMs : Int) (n : Nat) :
    fetchSleepEvents pollIntervalMs n ++ [WaitEvent.fetch, WaitEvent.sleep pollIntervalMs]
      = fetchSleepEvents pollIntervalMs (n + 1) := by
  induction n with
  | zero => rfl
  | succ n ih => simp only [fetchSleepEvents, List.cons_append, ih]

/-- Claim C1: at any point in the wait loop still inside the deadline, a
successful fetch of a job whose status is terminal (completed, failed or
cancelled) makes waitForJob return that very envelope — success:true with
that job and its status — after the single fetch, with no sleep; a failed
or cancelled job is never turned into a wait-loop error. -/
theorem waitForJob_terminal_success (jobId : String)
    (timeoutMs pollIntervalMs elapsed d : Int) (r : ApiResponse KreaJob)
    (rest : List (Int × ApiResponse KreaJob)) (job : KreaJob)
    (h1 : elapsed < timeoutMs) (h2 : r.success = true) (h3 : r.data = some job)
    (h4 : isTerminalStatus job.status = true) :
    waitForJobGo jobId timeoutMs pollIntervalMs ((d, r) :: rest) elapsed
      = some (r, [WaitEvent.fetch]) := by
  simp [waitForJobGo, if_pos h1, h2, h3, h4]

/-- Witness for C1: a fetch that observes a failed job at elapsed 0 is
returned as a success envelope carrying that job. -/
theorem waitForJob_terminal_success_witness :
    waitForJobGo "job-1" 120000 2000 [(5, sampleTerminalResp)] 0
      = some (sampleTerminalResp, [WaitEvent.fetch]) :=
  waitForJob_terminal_success "job-1" 120000 2000 0 5 sampleTerminalResp [] sampleFailedJob
    (by omega) rfl rfl rfl

/-- Claim C3: at any point of the loop within the deadline, a fetch that
comes back as a failure envelope is returned unchanged immediately: one
fetch event, no sleep, and the remaining trace is never consulted. -/
theorem waitForJob_fetch_error_propagates (jobId : String)
    (timeoutMs pollIntervalMs d : Int)
    (pre rest : List (Int × ApiResponse KreaJob)) (r : ApiResponse KreaJob)
    (hwf : ∀ p ∈ pre, nonTerminalEntry p)
    (hd : ∀ p ∈ pre, 0 ≤ p.1)
    (hi : 0 ≤ pollIntervalMs)
    (hsum : sumElapsed pollIntervalMs pre < timeoutMs)
    (herr : r.success = false) :
    waitForJob jobId timeoutMs pollIntervalMs (pre ++ (d, r) :: rest)
      = some (r, fetchSleepEvents pollIntervalMs pre.length ++ [WaitEvent.fetch]) := by
  unfold waitForJob
  rw [waitForJobGo_append jobId timeoutMs pollIntervalMs pre ((d, r) :: rest) 0 hwf hd hi
    (by omega)]
  have hlt : (0 : Int) + sumElapsed pollIntervalMs pre < timeoutMs := by omega
  simp [waitForJobGo, if_pos hlt, herr]
  omega

/-- Witness for C3: after one non-terminal poll, an HTTP_404 fetch result
is returned as-is, with no retry and no trailing sleep, leaving the rest
of the trace unused. -/
theorem waitForJob_fetch_error_propagates_witness :
    waitForJob "job-1" 120000 2000
        [(1, samplePendingResp), (1, sampleErrorResp), (9, samplePendingResp)]
      = some (sampleErrorResp, fetchSleepEvents 2000 1 ++ [WaitEvent.fetch]) :=
  waitForJob_fetch_error_propagates "job-1" 120000 2000 1
    [(1, samplePendingResp)] [(9, samplePendingResp)] sampleErrorResp
    (by
      intro p hp
      simp only [List.mem_singleton] at hp
      subst hp
      exact ⟨rfl, samplePendingJob, rfl, rfl⟩)
    (by intro p hp; simp only [List.mem_singleton] at hp; subst hp; omega)
    (by omega)
    (by norm_num [sumElapsed])
    rfl

/-- Claim C4: a run that observes a block of non-terminal statuses inside
the deadline and then a terminal one performs exactly one fetch per
observation, sleeps the fixed poll interval between consecutive fetches,
and returns the terminal envelope at once — no trailing sleep, no further
fetch, whatever else the trace would have answered. -/
theorem waitForJob_poll_schedule (jobId : String)
    (timeoutMs pollIntervalMs d : Int)
    (pre rest : List (Int × ApiResponse KreaJob)) (r : ApiResponse KreaJob) (job : KreaJob)
    (hwf : ∀ p ∈ pre, nonTerminalEntry p)
    (hd : ∀ p ∈ pre, 0 ≤ p.1)
    (hi : 0 ≤ pollIntervalMs)
    (hsum : sumElapsed pollIntervalMs pre < timeoutMs)
    (hsucc : r.success = true) (hdata : r.data = some job)
    (hterm : isTerminalStatus job.status = true) :
    waitForJob jobId timeoutMs pollIntervalMs (pre ++ (d, r) :: rest)
      = some (r, fetchSleepEvents pollIntervalMs pre.length ++ [WaitEvent.fetch]) := by
  unfold waitForJob
  rw [waitForJobGo_append jobId timeoutMs pollIntervalMs pre ((d, r) :: rest) 0 hwf hd hi
    (by omega)]
  have hlt : (0 : Int) + sumElapsed pollIntervalMs pre < timeoutMs := by omega
  simp [waitForJobGo, if_pos hlt, hsucc, hdata, hterm]
  omega

/-- Witness for C4: two pending observations then a completed-family
terminal one, at 2000 ms fixed interval, give fetch-sleep-fetch-sleep-
fetch and return the terminal envelope; a later trace entry is ignored. -/
theorem waitForJob_poll_schedule_witness :
    waitForJob "job-1" 120000 2000
        [(1, samplePendingResp), (2, samplePendingResp), (3, sampleTerminalResp),
         (7, samplePendingResp)]
      = some (sampleTerminalResp, fetchSleepEvents 2000 2 ++ [WaitEvent.fetch]) :=
  waitForJob_poll_schedule "job-1" 120000 2000 3
    [(1, samplePendingResp), (2, samplePendingResp)] [(7, samplePendingResp)]
    sampleTerminalResp sampleFailedJob
    (by
      intro p hp
      simp only [List.mem_cons, List.mem_singleton] at hp
      rcases hp with hp | hp | hp
      · subst hp; exact ⟨rfl, samplePendingJob, rfl, rfl⟩
      · subst hp; exact ⟨rfl, samplePendingJob, rfl, rfl⟩
      · exact absurd hp (by simp))
    (by
      intro p hp
      simp only [List.mem_cons, List.mem_singleton] at hp
      rcases hp with hp | hp | hp
      · subst hp; omega
      · subst hp; omega
      · exact absurd hp (by simp))
    (by omega)
    (by norm_num [sumElapsed])
    rfl rfl rfl

/-- Claim C2: when every status fetched is non-terminal and the elapsed
clock reaches the budget after the last in-deadline poll (its fetch plus
its sleep), the loop exits at the next `while` test — before issuing any
further fetch, however much trace remains — returning success:false with
error code TIMEOUT and the message
"Job <jobId> did not complete within <timeoutMs>ms". -/
theorem waitForJob_timeout (jobId : String)
    (timeoutMs pollIntervalMs d : Int)
    (pre rest : List (Int × ApiResponse KreaJob)) (r : ApiResponse KreaJob) (job : KreaJob)
    (hwf : ∀ p ∈ pre, nonTerminalEntry p)
    (hd : ∀ p ∈ pre, 0 ≤ p.1)
    (hi : 0 ≤ pollIntervalMs)
    (hsucc : r.success = true) (hdata : r.data = some job)
    (hterm : isTerminalStatus job.status = false)
    (h1 : sumElapsed pollIntervalMs pre < timeoutMs)
    (h2 : timeoutMs ≤ sumElapsed pollIntervalMs pre + d + pollIntervalMs) :
    waitForJob jobId timeoutMs pollIntervalMs (pre ++ (d, r) :: rest)
      = some (⟨false, none, some ⟨"TIMEOUT",
            "Job " ++ jobId ++ " did not complete within " ++ toString timeoutMs ++ "ms"⟩⟩,
          fetchSleepEvents pollIntervalMs (pre.length + 1)) := by
  unfold waitForJob
  rw [waitForJobGo_append jobId timeoutMs pollIntervalMs pre ((d, r) :: rest) 0 hwf hd hi
    (by omega)]
  have hlt : (0 : Int) + sumElapsed pollIntervalMs pre < timeoutMs := by omega
  simp only [waitForJobGo, if_pos hlt, hsucc, hdata, hterm]
  simp only [Bool.true_eq_false, if_false, Bool.false_eq_true]
  rw [waitForJobGo_deadline jobId timeoutMs pollIntervalMs
    (0 + sumElapsed pollIntervalMs pre + d + pollIntervalMs) rest (by omega)]
  simp only [Option.map_some']
  rw [fetchSleepEvents_snoc]
  rfl

/-- Witness for C2: one pending fetch at 1 ms, one more pending fetch,
budget 3000 ms, interval 2000 ms — the deadline passes during the second
sleep, the loop exits with the TIMEOUT envelope, and a third trace entry
is never fetched. -/
theorem waitForJob_timeout_witness :
    waitForJob "job-1" 3000 2000
        [(1, samplePendingResp), (1, samplePendingResp), (9, samplePendingResp)]
      = some (⟨false, none, some ⟨"TIMEOUT",
            "Job " ++ "job-1" ++ " did not complete within " ++ toString (3000 : Int) ++ "ms"⟩⟩,
          fetchSleepEvents 2000 (1 + 1)) :=
  waitForJob_timeout "job-1" 3000 2000 1
    [(1, samplePendingResp)] [(9, samplePendingResp)] samplePendingResp samplePendingJob
    (by
      intro p hp
      simp only [List.mem_singleton] at hp
      subst hp
      exact ⟨rfl, samplePendingJob, rfl, rfl⟩)
    (by intro p hp; simp only [List.mem_singleton] at hp; subst hp; omega)
    (by omega)
    rfl rfl rfl
    (by norm_num [sumElapsed])
    (by norm_num [sumElapsed])

/-- Claim C9: with a non-positive timeout budget the `while` condition
fails at its very first test, so waitForJob performs zero fetches and
returns the TIMEOUT error immediately, whatever the remote would have
answered. -/
theorem waitForJob_nonpositive_timeout (jobId : String) (timeoutMs pollIntervalMs : Int)
    (trace : List (Int × ApiResponse KreaJob)) (h : timeoutMs ≤ 0) :
    waitForJob jobId timeoutMs pollIntervalMs trace
      = some (⟨false, none, some ⟨"TIMEOUT",
            "Job " ++ jobId ++ " did not complete within " ++ toString timeoutMs ++ "ms"⟩⟩,
          []) := by
  unfold waitForJob
  rw [waitForJobGo_deadline jobId timeoutMs pollIntervalMs 0 trace (by omega)]
  rfl

/-- Witness for C9: a zero budget returns the TIMEOUT envelope with an
empty event list even though the trace could have answered a fetch. -/
theorem waitForJob_nonpositive_timeout_witness :
    waitForJob "job-1" 0 2000 [(1, sampleTerminalResp)]
      = some (⟨false, none, some ⟨"TIMEOUT",
            "Job " ++ "job-1" ++ " did not complete within " ++ toString (0 : Int) ++ "ms"⟩⟩,
          []) :=
  waitForJob_nonpositive_timeout "job-1" 0 2000 [(1, sampleTerminalResp)] (by omega)

/-- Claim C7: every envelope the gateway produces satisfies the Operation
Result invariant — a success carries data and no error, a failure carries
an error and no data: first for every outcome `request` normalizes, then
for whatever `waitForJob` returns, provided each envelope its fetches see
satisfies the invariant (as part one guarantees, since each is a
`request` output). -/
theorem result_envelope_invariant :
    (∀ (α : Type) (o : FetchOutcome α), envelopeOk (requestResult o)) ∧
    (∀ (jobId : String) (timeoutMs pollIntervalMs elapsed : Int)
       (trace : List (Int × ApiResponse KreaJob))
       (res : ApiResponse KreaJob) (evs : List WaitEvent),
       (∀ p ∈ trace, envelopeOk p.2) →
       waitForJobGo jobId timeoutMs pollIntervalMs trace elapsed = some (res, evs) →
       envelopeOk res) := by
  constructor
  · intro α o
    cases o <;> simp [requestResult, envelopeOk]
  · intro jobId timeoutMs pollIntervalMs elapsed trace
    induction trace generalizing elapsed with
    | nil =>
        intro res evs htr heq
        simp only [waitForJobGo] at heq
        split at heq
        · exact absurd heq (by simp)
        · simp only [Option.some.injEq, Prod.mk.injEq] at heq
          obtain ⟨h1, h2⟩ := heq
          subst h1
          simp [timeoutResponse, envelopeOk]
    | cons p rest ih =>
        obtain ⟨d, r⟩ := p
        intro res evs htr heq
        have hr : envelopeOk r := htr (d, r) (List.mem_cons_self _ _)
        have htr2 : ∀ q ∈ rest, envelopeOk q.2 :=
          fun q hq => htr q (List.mem_cons_of_mem _ hq)
        simp only [waitForJobGo] at heq
        split at heq
        · split at heq
          · simp only [Option.some.injEq, Prod.mk.injEq] at heq
            obtain ⟨h1, h2⟩ := heq
            subst h1
            exact hr
          · split at heq
            · split at heq
              · simp only [Option.some.injEq, Prod.mk.injEq] at heq
                obtain ⟨h1, h2⟩ := heq
                subst h1
                exact hr
              · split at heq
                · simp only [Option.some.injEq, Prod.mk.injEq] at heq
                  obtain ⟨h1, h2⟩ := heq
                  subst h1
                  next res2 evs2 hrec =>
                    exact ih (elapsed + d + pollIntervalMs) res2 evs2 htr2 hrec
                · exact absurd heq (by simp)
            · exact absurd heq (by simp)
        · simp only [Option.some.injEq, Prod.mk.injEq] at heq
          obtain ⟨h1, h2⟩ := heq
          subst h1
          simp [timeoutResponse, envelopeOk]

/-- Witness for C7: the envelope of a normalized 404 and the envelope a
zero-budget wait returns both satisfy the invariant. -/
theorem result_envelope_invariant_witness :
    envelopeOk (requestResult (FetchOutcome.httpError 404 none) : ApiResponse KreaJob) ∧
    envelopeOk (timeoutResponse "job-1" 0) := by
  constructor
  · exact result_envelope_invariant.1 KreaJob (FetchOutcome.httpError 404 none)
  · exact result_envelope_invariant.2 "job-1" 0 2000 0 [] (timeoutResponse "job-1" 0) []
      (by simp) rfl

/-- Counterexample to claim C5 as stated: with status "all" and type
"all", listJobs omits the status filter but sends the literal string
"all" as the `type` query parameter (krea-client.ts line 147 passes
`params.type` through with no sentinel check). -/
theorem listJobs_type_all_counterexample :
    listJobsQueryParams ⟨some 20, some 0, some "all", some "all"⟩
      = [("limit", "20"), ("offset", "0"), ("type", "all")] := rfl

/-- Claim C5 as amended: in every List call, `limit` and `offset` pass
through unmodified, a status of "all" is mapped to an omitted parameter
while any other status passes through — but `type` always passes through
unmodified, including the literal "all". -/
theorem listJobs_query_params_amended (l o : Int) (st ty : String) :
    listJobsQueryParams ⟨some l, some o, some st, some ty⟩
      = [("limit", toString l), ("offset", toString o)]
          ++ (if st = "all" then [] else [("status", st)]) ++ [("type", ty)] := by
  by_cases h : st = "all" <;>
    simp [listJobsQueryParams, listJobsRawParams, buildSearchParams, h]

/-- Claim C6: `waitForJob`'s own defaults are 120000 ms and 2000 ms, so a
generation submitted with waitForCompletion waits 120000 ms (image) with
2000 ms polls, while `generateVideo` passes 300000 ms explicitly and
leaves the interval at 2000 ms. -/
theorem generate_wait_defaults (job : KreaJob) (trace : List (Int × ApiResponse KreaJob)) :
    defaultTimeoutMs = 120000 ∧ defaultPollIntervalMs = 2000 ∧
    generateImage (FetchOutcome.ok job) true trace = waitForJob job.id 120000 2000 trace ∧
    generateVideo (FetchOutcome.ok job) true trace = waitForJob job.id 300000 2000 trace := by
  refine ⟨rfl, rfl, ?_, ?_⟩ <;> rfl

/-- Counterexample to claim C8 as stated: when the remote answers a
delete with 404 (resource already gone), `deleteJob` does not fold that
into an already-deleted success — it escalates the error envelope
`HTTP_404` to the caller. -/
theorem deleteJob_notfound_counterexample :
    deleteJob "job-1" (FetchOutcome.httpError 404 none)
      = ⟨false, none, some ⟨"HTTP_404", "Request failed with status 404"⟩⟩ := rfl

/-- Claim C8 as amended: `deleteJob` applies no not-found special-casing
at all; a remote 404 is surfaced to the caller as success:false with
error code HTTP_404, exactly like any other non-2xx outcome. -/
theorem deleteJob_notfound_escalates (jobId : String) (bodyMessage : Option String) :
    deleteJob jobId (FetchOutcome.httpError 404 bodyMessage)
      = ⟨false, none, some ⟨"HTTP_404", httpErrorMessage 404 bodyMessage⟩⟩ := rfl

/-- Claim C10: the schema default of `confirm` is false for both delete
tools, and with confirm false each handler returns the
"Deletion not confirmed" error result (isError set) without performing
any gateway call, whatever the network would have answered. -/
theorem delete_tools_confirm_gate (jobId assetId : String)
    (o1 o2 : FetchOutcome DeleteResult) :
    deleteJobConfirmDefault = false ∧ deleteAssetConfirmDefault = false ∧
    kreaDeleteJobTool ⟨jobId, false⟩ o1
      = (formatErrorResponse "Deletion not confirmed" (some "Set confirm=true to delete"), []) ∧
    kreaDeleteAssetTool ⟨assetId, false⟩ o2
      = (formatErrorResponse "Deletion not confirmed" (some "Set confirm=true to delete"), []) :=
  ⟨rfl, rfl, rfl, rfl⟩
